import Mathlib

/-!
Shallow embedding of `headsupbot` (heads-up fixed-limit hold'em).

`src/main.py` defines the betting state machine (`LimitHoldemState`), the
action/policy model (`Action`, `Preference`, `match`), and the hand driver
(`LimitHoldemGame.play_hand`).  `src/extensive.py` defines the game-tree
builder (`add_fta_tree`, `add_raise_tree`, `fta_rec`, `formulate_game`).

Modelling conventions:
* Chip amounts (stacks, bets, pot, blinds) are `ℚ`, since the small blind is
  the Python float `0.5` and all amounts in play are exact halves.
* Python two-element lists (`bb_flag`, `action_flag`, `acted`, `stacks`,
  `bets`, `hands`) are a `Pair`; roles are `Fin 2`, the Python `not role` /
  `1 - role` index is `other`.
* Cards are opaque `ℕ` codes; the deuces `Deck` is a list of remaining cards
  and `draw n` removes its first `n` cards.  No claim depends on card values,
  only on how many cards move.  The deuces `Evaluator` is an external service
  and enters `showdown` as an explicit scoring function parameter.
* The Python lists are mutable objects.  `new_hand` runs
  `self.bb_flag.reverse(); self.action_flag = self.bb_flag;
  self.action_flag.reverse()`: after the assignment both names refer to the
  SAME list object, so the second in-place `reverse` undoes the first.  The
  net effect in value semantics is that `bb_flag` is unchanged and
  `action_flag` becomes equal to `bb_flag`; the embedding of `new_hand`
  reproduces exactly that (written as a double reverse to mirror the source).
  No other statement mutates a list that is aliased at the time, so plain
  value semantics is faithful everywhere else.
* The cosmetic fields `history`, `actions` (hand logs) and `names` are
  omitted: no claim mentions them and no other code reads them.
-/

namespace HUB

/-- A Python two-element list `[fst, snd]`. -/
structure Pair (α : Type) where
  fst : α
  snd : α
deriving DecidableEq, Repr

def Pair.get {α : Type} (p : Pair α) (i : Fin 2) : α :=
  if i.val = 0 then p.fst else p.snd

def Pair.set {α : Type} (p : Pair α) (i : Fin 2) (x : α) : Pair α :=
  if i.val = 0 then ⟨x, p.snd⟩ else ⟨p.fst, x⟩

/-- Python `list.reverse()` on a two-element list. -/
def Pair.rev {α : Type} (p : Pair α) : Pair α := ⟨p.snd, p.fst⟩

@[simp] theorem Pair.rev_rev {α : Type} (p : Pair α) : p.rev.rev = p := rfl

/-- The opposite role: Python `not role` / `1 - role` on a 0/1 index. -/
def other (i : Fin 2) : Fin 2 := ⟨1 - i.val, by omega⟩

/-- The `ActionType` enum from `src/main.py`: player events and dealer events. -/
inductive ActionType where
  | Fold | Check | Call | Bet | Raise | Shove
  | DealHand | DealStreet | PostBB | PostSB | HandWon | Bust
deriving DecidableEq, Repr

/-- A concrete action: kind plus optional amount (`None` when the Python
constructor got no positional argument). -/
structure Action where
  kind : ActionType
  amount : Option ℚ
deriving DecidableEq, Repr

def fold : Action := ⟨ActionType.Fold, none⟩
def check : Action := ⟨ActionType.Check, none⟩
def call_n (amount : ℚ) : Action := ⟨ActionType.Call, some amount⟩
def bet_n (amount : ℚ) : Action := ⟨ActionType.Bet, some amount⟩
def raise_n (amount : ℚ) : Action := ⟨ActionType.Raise, some amount⟩
def shove_n (amount : ℚ) : Action := ⟨ActionType.Shove, some amount⟩

/-- Embeds `deuces.Deck.draw n`: the first `n` remaining cards, and the rest. -/
def draw (deck : List ℕ) (n : ℕ) : List ℕ × List ℕ := (deck.take n, deck.drop n)

/-- The `LimitHoldemState` record from `src/main.py` (per-hand and per-session fields;
see the module comment for the omitted cosmetic fields). -/
structure LHState where
  board : List ℕ
  sb_amt : ℚ
  bb_amt : ℚ
  pot_amount : ℚ
  street : ℕ
  raise_count : ℕ
  deck : List ℕ
  hand_over : Bool
  game_over : Bool
  bb_flag : Pair Bool
  action_flag : Pair Bool
  acted : Pair Bool
  «stacks» : Pair ℚ
  bets : Pair ℚ
  hands : Pair (List ℕ)
deriving DecidableEq, Repr

/-- The `LimitHoldemState.__init__` field values (a fresh 52-card deck is
modelled as 52 distinct card codes; its order is irrelevant to every claim). -/
def init_state : LHState where
  board := []
  sb_amt := 1/2
  bb_amt := 1
  pot_amount := 0
  street := 0
  raise_count := 0
  deck := List.range 52
  hand_over := false
  game_over := false
  bb_flag := ⟨true, false⟩
  action_flag := ⟨false, true⟩
  acted := ⟨false, false⟩
  «stacks» := ⟨100, 100⟩
  bets := ⟨0, 0⟩
  hands := ⟨[], []⟩

def acting_player (s : LHState) : Fin 2 :=
  if s.action_flag.get 0 then 0 else 1

def bb_player (s : LHState) : Fin 2 :=
  if s.bb_flag.get 0 then 0 else 1

def facing_bet_raise (s : LHState) (role : Fin 2) : Bool :=
  s.bets.get role < s.bets.get (other role)

def facing_call (s : LHState) (role : Fin 2) : Bool :=
  s.bets.get role == s.bets.get (other role)

def can_cover_bet (s : LHState) (role : Fin 2) : Bool :=
  s.stacks.get role ≥ s.bets.get (other role)

def has_bb_option (s : LHState) (role : Fin 2) : Bool :=
  s.bb_flag.get role && (s.street == 0) && facing_call s role

/-- Embeds `raise_amount`: 1bb pre-flop/flop, 2bb turn/river. -/
def raise_amount (s : LHState) : ℚ :=
  if s.street < 2 then s.bb_amt else 2 * s.bb_amt

/-- Embeds `bet_amount`: the small bet pre-flop/flop, the big bet turn/river. -/
def bet_amount (s : LHState) : ℚ :=
  if s.street < 2 then s.sb_amt else s.bb_amt

def can_raise (s : LHState) (role : Fin 2) : Bool :=
  let can_raise_normally := (s.raise_count < 3 : Bool) && facing_bet_raise s role
  let can_use_option := (s.raise_count < 3 : Bool) && has_bb_option s role
  let can_pay := s.stacks.get role ≥ raise_amount s
  (can_raise_normally || can_use_option) && can_pay

def can_bet (s : LHState) (role : Fin 2) : Bool :=
  (s.bets.get role == 0) && !facing_bet_raise s role

def can_check (s : LHState) (role : Fin 2) : Bool :=
  !facing_bet_raise s role && ((s.bets.get role == 0) || has_bb_option s role)

def can_call (s : LHState) (role : Fin 2) : Bool :=
  facing_bet_raise s role && can_cover_bet s role

def can_shove (s : LHState) (role : Fin 2) : Bool :=
  facing_bet_raise s role && !can_call s role

def can_fold (s : LHState) (role : Fin 2) : Bool :=
  facing_bet_raise s role

/-- Embeds `available_actions`: `[None]` when queried out of turn (the Python
sentinel, modelled as `none`), otherwise the predicate-gated list built in
the fixed order Check, Bet, Call, Raise, Shove.  Fold is never appended. -/
def available_actions (s : LHState) (role : Fin 2) : List (Option Action) :=
  if !s.action_flag.get role then [none]
  else
    ((if can_check s role then [check] else []) ++
     (if can_bet s role then [bet_n (bet_amount s)] else []) ++
     (if can_call s role then [call_n (s.bets.get (other role))] else []) ++
     (if can_raise s role then [raise_n (raise_amount s)] else []) ++
     (if can_shove s role then [shove_n (s.stacks.get role)] else [])).map some

/-- Embeds `new_hand`.  The Python body runs, in order: the aliased double reverse of
the blind/action flags (see the module comment), append of the old log to
`history` (omitted, cosmetic), the per-hand field resets, the blind-coverage
checks that set `game_over` and return early, the blind posting, and the deal
of two hole cards to the big blind then two to the small blind. -/
def new_hand (s : LHState) : LHState :=
  let flags := s.bb_flag.rev.rev
  let s1 : LHState :=
    { s with bb_flag := flags, action_flag := flags,
             board := [], pot_amount := 0, bets := ⟨0, 0⟩,
             hands := ⟨[], []⟩, acted := ⟨false, false⟩,
             street := 0, raise_count := 0, hand_over := false }
  let bb := bb_player s1
  let sb := other bb
  if s1.stacks.get bb < s1.bb_amt then { s1 with game_over := true }
  else if s1.stacks.get sb < s1.sb_amt then { s1 with game_over := true }
  else
    let stacks2 := ((s1.stacks.set bb (s1.stacks.get bb - s1.bb_amt)).set
      sb (s1.stacks.get sb - s1.sb_amt))
    let bets2 := (s1.bets.set bb s1.bb_amt).set sb s1.sb_amt
    let bb_hand := (draw s1.deck 2).1
    let deck1 := (draw s1.deck 2).2
    let sb_hand := (draw deck1 2).1
    let deck2 := (draw deck1 2).2
    { s1 with «stacks» := stacks2, bets := bets2, deck := deck2,
              hands := (s1.hands.set bb bb_hand).set sb sb_hand }

/-- Embeds `declare_winner`: the winner's stack gains the pot; `hand_over` is set.
The pot itself is NOT cleared here — the source comments that further
bookkeeping happens only when the next hand is dealt. -/
def declare_winner (s : LHState) (winner : Fin 2) : LHState :=
  { s with «stacks» := s.stacks.set winner (s.stacks.get winner + s.pot_amount),
           hand_over := true }

/-- Embeds `showdown`: both hands are scored by the external evaluator (passed as
`ev`); the source picks role 0 exactly when its score is strictly greater. -/
def showdown (ev : List ℕ → List ℕ → ℤ) (s : LHState) : LHState :=
  let p0_score := ev s.board (s.hands.get 0)
  let p1_score := ev s.board (s.hands.get 1)
  let winner : Fin 2 := if p0_score > p1_score then 0 else 1
  declare_winner s winner

/-- Embeds `new_street`: deal 3 cards to an empty board, else 1; collect the bets
into the pot; advance the street; put the action on the big blind; reset
`acted`, `bets` and `raise_count`. -/
def new_street (s : LHState) : LHState :=
  let board1 := if s.board.length = 0 then (draw s.deck 3).1
                else s.board ++ (draw s.deck 1).1
  let deck1 := if s.board.length = 0 then (draw s.deck 3).2 else (draw s.deck 1).2
  { s with board := board1, deck := deck1,
           pot_amount := s.pot_amount + (s.bets.get 0 + s.bets.get 1),
           street := s.street + 1,
           action_flag := s.bb_flag,
           acted := ⟨false, false⟩,
           bets := ⟨0, 0⟩,
           raise_count := 0 }

/-- Embeds `deal_or_showdown`: showdown once the street counter reaches 5, otherwise
deal the next street. -/
def deal_or_showdown (ev : List ℕ → List ℕ → ℤ) (s : LHState) : LHState :=
  if s.street = 5 then showdown ev s else new_street s

/-- Embeds `pot_is_good`: bets level, both roles have acted, and the big blind holds
no unexercised option. -/
def pot_is_good (s : LHState) : Bool :=
  (s.bets.get 0 == s.bets.get 1) && (s.acted.get 0 && s.acted.get 1) &&
    !has_bb_option s (bb_player s)

/-- Embeds `update`: applies a player action as the acting role.  Every branch first
marks `acted[role]`.  Call debits the stack by the action's full amount while
setting `bets[role]` to the opponent's bet; Bet/Shove overwrite `bets[role]`
with the amount; Raise adds it and bumps `raise_count`.  Dealer action kinds
fall through the if/elif chain and change nothing further.  (Python would
raise on a missing amount in the chip branches; actions built by
`available_actions` always carry one, and a missing amount is defaulted to 0
only to keep the function total.) -/
def update (s : LHState) (action : Action) : LHState :=
  let role := acting_player s
  let s1 : LHState := { s with acted := s.acted.set role true }
  let amt := action.amount.getD 0
  match action.kind with
  | ActionType.Fold => declare_winner s1 (other role)
  | ActionType.Check => s1
  | ActionType.Call =>
      { s1 with «stacks» := s1.stacks.set role (s1.stacks.get role - amt),
                bets := s1.bets.set role (s1.bets.get (other role)) }
  | ActionType.Bet =>
      { s1 with «stacks» := s1.stacks.set role (s1.stacks.get role - amt),
                bets := s1.bets.set role amt }
  | ActionType.Raise =>
      { s1 with raise_count := s1.raise_count + 1,
                «stacks» := s1.stacks.set role (s1.stacks.get role - amt),
                bets := s1.bets.set role (s1.bets.get role + amt) }
  | ActionType.Shove =>
      { s1 with «stacks» := s1.stacks.set role (s1.stacks.get role - amt),
                bets := s1.bets.set role amt }
  | _ => s1

/-- All chips in sight of one hand: both stacks, the collected pot, and the
live bets.  This is the quantity the chip-conservation property tracks. -/
def chip_sum (s : LHState) : ℚ :=
  s.stacks.get 0 + s.stacks.get 1 + s.pot_amount + s.bets.get 0 + s.bets.get 1

/-- Embeds `put_action_on_bb`: assigns the action flag to the big-blind flag. -/
def put_action_on_bb (s : LHState) : LHState :=
  { s with action_flag := s.bb_flag }

/-!
The resolution function `match` tests `a in acts` on `Action` objects.
The Python `Action` class defines no `__eq__`, so `in` falls back to the
default identity comparison: two distinct objects compare unequal even with
the same kind and amount.  `PyAction` models a Python `Action` object with an
explicit identity tag `oid`; `py_eq` is the default `__eq__`, `val_eq` is the
(kind, amount) value equality the spec describes.  Only the `Preference`
branch of `match` is modelled (`match_preference`); the `Strategy` branch
samples from a random generator and the fixed-`Action` branch returns its
input unchanged, and no claim is about either.
-/

/-- A Python `Action` object: identity tag plus the (kind, amount) payload. -/
structure PyAction where
  oid : ℕ
  kind : ActionType
  amount : Option ℚ
deriving DecidableEq, Repr

/-- Python default `__eq__`: object identity. -/
def py_eq (a b : PyAction) : Bool := a.oid == b.oid

/-- Python `a in acts` for a class with no `__eq__`. -/
def py_mem (a : PyAction) (acts : List PyAction) : Bool :=
  acts.any (fun b => py_eq a b)

/-- Value equality on (kind, amount), as the spec describes membership. -/
def val_eq (a b : PyAction) : Bool :=
  (a.kind == b.kind) && (a.amount == b.amount)

/-- The `Preference` branch of `match`: the first preference contained in the
legal list (Python `in`), else `None`. -/
def match_preference (prefs acts : List PyAction) : Option PyAction :=
  match prefs with
  | [] => none
  | a :: rest => if py_mem a acts then some a else match_preference rest acts

/-!
Embedding of the game-tree builder (`src/extensive.py`).

The builder threads a `networkx` digraph, but the payoff count — the only
output any claim mentions — depends solely on the node lists and terminal
flag each function returns; the graph edges are plotting bookkeeping and are
not modelled.  The module-level `NO_RAISING` toggle becomes an explicit
`no_raising` parameter.  `fta_rec` is general recursion in Python; here it
carries an explicit fuel argument.  Every recursive call strictly increases
the node depth and `add_fta_tree` returns no successor nodes once
`depth + 1 ≥ n_rounds`, so a call chain starting at depth 0 makes at most
`n_rounds` nested calls and the fuel `n_rounds + 1` used by `formulate_game`
is never exhausted.
-/

/-- The player constants of `src/extensive.py`. -/
def PAYOFF : ℤ := -1

def NATURE : ℤ := 0

def P1 : ℤ := 1

def P2 : ℤ := 2

/-- The `Node` record from `src/extensive.py` (the `parent`/`children` back-references
are graph bookkeeping, never read by the payoff count). -/
structure TNode where
  player : ℤ
  action : String
  depth : ℕ
  rc : ℕ := 0
deriving DecidableEq, Repr

/-- Embeds `add_raise_tree`: the raise/re-raise/cap ladder under one raise node;
returns (payoff-bound nodes, nature-continuation nodes). -/
def add_raise_tree (raise_node : TNode) : List TNode × List TNode :=
  let rp := raise_node.player
  let other := if rp == P1 then P2 else P1
  let depth := raise_node.depth
  let rf : TNode := ⟨other, "f", depth, 0⟩
  let rc : TNode := ⟨other, "c", depth, 0⟩
  let rrf : TNode := ⟨rp, "f", depth, 0⟩
  let rrc : TNode := ⟨rp, "c", depth, 0⟩
  let rrrf : TNode := ⟨other, "f", depth, 0⟩
  let rrrc : TNode := ⟨other, "c", depth, 0⟩
  ([rf, rrf, rrrf], [rc, rrc, rrrc])

/-- Embeds `add_fta_tree`: one betting round under a nature node; returns
(payoff-bound nodes, nature-continuation nodes, immediate-terminal count). -/
def add_fta_tree (no_raising : Bool) (nature_node : TNode) (n_rounds : ℕ) :
    List TNode × List TNode × ℕ :=
  let fta := P1
  let other := P2
  let depth := nature_node.depth + 1
  if n_rounds ≤ depth then ([], [], 1)
  else
    let xx : TNode := ⟨other, "x", depth, 0⟩
    let xbf : TNode := ⟨fta, "f", depth, 0⟩
    let xbc : TNode := ⟨fta, "c", depth, 0⟩
    let bf : TNode := ⟨other, "f", depth, 0⟩
    let bc : TNode := ⟨other, "c", depth, 0⟩
    let ns := [xx, xbc, bc]
    let ps := [xbf, bf]
    if no_raising then (ps, ns, 0)
    else
      let xbr : TNode := ⟨fta, "r", depth, 0⟩
      let br : TNode := ⟨other, "r", depth, 0⟩
      let xt := add_raise_tree xbr
      let bt := add_raise_tree br
      (ps ++ xt.1 ++ bt.1, ns ++ xt.2 ++ bt.2, 0)

/-- Embeds `fta_rec`: accumulates the payoff-leaf count — the immediate terminal,
one payoff leaf per fold node, and the recursive counts below each
nature-continuation node (with `nps` chance children unless `nps == 1` or
the next-to-last round is reached). -/
def fta_rec (no_raising : Bool) : ℕ → ℕ → ℕ → TNode → ℕ
  | 0, _, _, _ => 0
  | Nat.succ fuel, n_rounds, nps, node =>
    let r := add_fta_tree no_raising node n_rounds
    let from_ns := (r.2.1.map (fun n =>
      if nps = 1 ∨ n_rounds - 1 ≤ n.depth then
        fta_rec no_raising fuel n_rounds nps n
      else
        ((List.range nps).map (fun i =>
          fta_rec no_raising fuel n_rounds nps ⟨NATURE, toString i, n.depth + 1, 0⟩)).sum)).sum
    r.2.2 + r.1.length + from_ns

/-- Embeds `formulate_game`: `nps` nature nodes at depth 0 under the root, summing
their `fta_rec` payoff counts. -/
def formulate_game (no_raising : Bool) (n_rounds nps : ℕ) : ℕ :=
  ((List.range nps).map (fun i =>
    fta_rec no_raising (n_rounds + 1) n_rounds nps ⟨NATURE, toString i, 0, 0⟩)).sum

/-!
Concrete states used by the theorems below.
-/

/-- A trivial stand-in for the external evaluator; only streets 0–4 are ever
advanced in the statements that use it, so it is never consulted. -/
def ev0 : List ℕ → List ℕ → ℤ := fun _ _ => 0

/-- A post-blind state with the action on the small blind (role 1), as the
intended rules would have it: role 0 is the big blind with 1bb posted, role 1
has posted 0.5bb, both stacks debited from 100. -/
def sb_to_act_state : LHState :=
  { init_state with «stacks» := ⟨99, 199/2⟩, bets := ⟨1, 1/2⟩,
                    action_flag := ⟨false, true⟩ }

/-- A state with a 2bb pot about to be awarded. -/
def pot_award_state : LHState :=
  { init_state with «stacks» := ⟨99, 99⟩, pot_amount := 2 }

/-- Does an entry of an `available_actions` result have kind Fold? -/
def is_fold_opt : Option Action → Bool
  | some a => a.kind == ActionType.Fold
  | none => false

/-!
Theorems settling the claims.
-/

/-- C1.  The claimed scenario cannot happen: starting the hand with two
100bb stacks and role 0 the big blind, the blinds are posted as claimed
(role 0 pays 1bb, role 1 pays 0.5bb), but the aliased flag flip in
`new_hand` leaves the action on role 0 — the big blind — instead of the
small blind.  Role 1 is told it is not its turn (`[none]`), role 0's legal
list is empty, and the pot is not good, so the hand can never settle with
`bets = [1,1]`, a 2bb pot, 3 board cards and street 1. -/
theorem c1_scenario_impossible :
    bb_player (new_hand init_state) = 0 ∧
    (new_hand init_state).bets = ⟨1, 1/2⟩ ∧
    (new_hand init_state).stacks = ⟨99, 199/2⟩ ∧
    acting_player (new_hand init_state) = 0 ∧
    available_actions (new_hand init_state) 1 = [none] ∧
    available_actions (new_hand init_state) 0 = [] ∧
    pot_is_good (new_hand init_state) = false := by
  norm_num [available_actions, new_hand, init_state, can_check, can_bet, can_call,
    can_raise, can_shove, facing_bet_raise, facing_call, can_cover_bet,
    has_bb_option, bb_player, acting_player, other, Pair.get, Pair.set, Pair.rev,
    draw, bet_amount, raise_amount, pot_is_good]

/-- C2.  Chip conservation fails.  In a post-blind state with the action on
the small blind, Call is in the legal list with amount 1 (the opponent's
whole bet), and applying it debits the stack by that full amount while the
bet only rises by 0.5: half a big blind vanishes (200 → 199.5).  Declaring a
winner also breaks the claimed sum: the pot is added to the winner's stack
but never cleared (200 → 202). -/
theorem c2_conservation_fails :
    some (call_n 1) ∈ available_actions sb_to_act_state 1 ∧
    acting_player sb_to_act_state = 1 ∧
    chip_sum sb_to_act_state = 200 ∧
    chip_sum (update sb_to_act_state (call_n 1)) = 399/2 ∧
    chip_sum pot_award_state = 200 ∧
    chip_sum (declare_winner pot_award_state 0) = 202 := by
  norm_num [available_actions, sb_to_act_state, pot_award_state, init_state,
    can_check, can_bet, can_call, can_raise, can_shove, facing_bet_raise,
    facing_call, can_cover_bet, has_bb_option, bb_player, acting_player, other,
    Pair.get, Pair.set, Pair.rev, draw, bet_amount, raise_amount, chip_sum,
    update, declare_winner, call_n, raise_n]

/-- C3.  Legal-set non-emptiness fails at the very first reachable state:
immediately after `new_hand` the acting role (the big blind, already ahead
of the small blind's bet) can neither check, bet, call, raise nor shove, so
`available_actions` of the acting role is empty. -/
theorem c3_acting_role_has_no_actions :
    available_actions (new_hand init_state)
      (acting_player (new_hand init_state)) = [] := by
  norm_num [available_actions, new_hand, init_state, can_check, can_bet, can_call,
    can_raise, can_shove, facing_bet_raise, facing_call, can_cover_bet,
    has_bb_option, bb_player, acting_player, other, Pair.get, Pair.set, Pair.rev,
    draw, bet_amount, raise_amount]

/-- C4.  `new_hand` never alternates the blinds: because the two in-place
reversals in the source act on one aliased list, `bb_flag` after `new_hand`
equals `bb_flag` before it — for every state — and in particular is not its
element-wise reverse. -/
theorem c4_blinds_never_alternate :
    (∀ s : LHState, (new_hand s).bb_flag = s.bb_flag) ∧
    (new_hand init_state).bb_flag ≠ init_state.bb_flag.rev := by
  constructor
  · intro s
    unfold new_hand
    dsimp only
    split
    · rfl
    · split <;> rfl
  · norm_num [new_hand, init_state, bb_player, other, Pair.get, Pair.set,
      Pair.rev, draw]

/-- C5.  `update` never touches the action flag, for every action kind, so
the acting role after an applied action is the acting role before it; the
flag is reassigned (to the big-blind flag) only by `new_street`,
`put_action_on_bb` and `new_hand`. -/
theorem c5_update_preserves_action_flag :
    (∀ (s : LHState) (a : Action), (update s a).action_flag = s.action_flag) ∧
    (∀ s : LHState, (new_street s).action_flag = s.bb_flag) ∧
    (∀ s : LHState, (put_action_on_bb s).action_flag = s.bb_flag) := by
  refine ⟨?_, fun s => rfl, fun s => rfl⟩
  intro s a
  rcases a with ⟨k, amt⟩
  cases k <;> rfl

/-- C6.  Membership of a preference in the legal list is NOT decided by
(kind, amount) value equality: `Action` has no `__eq__`, so Python `in`
compares object identity.  A preference value-equal to a legal action but a
distinct object (different `oid`) yields no decision, while the very same
object does match. -/
theorem c6_membership_is_identity_not_value :
    val_eq ⟨0, ActionType.Check, none⟩ ⟨1, ActionType.Check, none⟩ = true ∧
    match_preference [⟨0, ActionType.Check, none⟩]
      [⟨1, ActionType.Check, none⟩] = none ∧
    match_preference [⟨1, ActionType.Check, none⟩]
      [⟨1, ActionType.Check, none⟩] = some ⟨1, ActionType.Check, none⟩ := by
  decide

/-- C7.  The street cadence overruns: advancing four times from a fresh hand
leaves six board cards (0 → 3 → 4 → 5 → 6) with the street counter at 4 and
no showdown, and a fifth advance deals a seventh card, because
`deal_or_showdown` only resolves a showdown once `street == 5`. -/
theorem c7_board_exceeds_five_cards :
    (deal_or_showdown ev0 (deal_or_showdown ev0 (deal_or_showdown ev0
      (deal_or_showdown ev0 (new_hand init_state))))).board.length = 6 ∧
    (deal_or_showdown ev0 (deal_or_showdown ev0 (deal_or_showdown ev0
      (deal_or_showdown ev0 (new_hand init_state))))).street = 4 ∧
    (deal_or_showdown ev0 (deal_or_showdown ev0 (deal_or_showdown ev0
      (deal_or_showdown ev0 (new_hand init_state))))).hand_over = false ∧
    (deal_or_showdown ev0 (deal_or_showdown ev0 (deal_or_showdown ev0
      (deal_or_showdown ev0 (deal_or_showdown ev0
        (new_hand init_state)))))).board.length = 7 := by
  norm_num [deal_or_showdown, new_street, showdown, declare_winner, ev0,
    new_hand, init_state, bb_player, other, Pair.get, Pair.set, Pair.rev, draw]

/-- C8.  The raise cap holds: if the acting role could legally raise (which
requires `raise_count < 3`), applying the Raise action that
`available_actions` would list leaves `raise_count ≤ 3`. -/
theorem c8_raise_cap (s : LHState)
    (h : can_raise s (acting_player s) = true) :
    (update s (raise_n (raise_amount s))).raise_count ≤ 3 := by
  have hrc : s.raise_count < 3 := by
    unfold can_raise at h
    simp only [Bool.and_eq_true, Bool.or_eq_true, decide_eq_true_eq] at h
    rcases h with ⟨h1 | h1, -⟩ <;> exact h1.1
  have hup : (update s (raise_n (raise_amount s))).raise_count
      = s.raise_count + 1 := rfl
  omega

/-- Witness for C8 at a concrete post-blind state where the small blind may
raise. -/
theorem c8_raise_cap_witness :
    can_raise sb_to_act_state (acting_player sb_to_act_state) = true ∧
    (update sb_to_act_state
      (raise_n (raise_amount sb_to_act_state))).raise_count ≤ 3 :=
  ⟨by norm_num [can_raise, sb_to_act_state, init_state, facing_bet_raise,
      facing_call, has_bb_option, acting_player, other, Pair.get, raise_amount],
   c8_raise_cap sb_to_act_state
    (by norm_num [can_raise, sb_to_act_state, init_state, facing_bet_raise,
      facing_call, has_bb_option, acting_player, other, Pair.get, raise_amount])⟩

/-- C9.  The tree builder with `n_rounds = 2`, `nps = 2` and raising enabled
counts exactly 34 payoff leaves: each of the two root nature branches
contributes 8 fold-terminal leaves plus 9 continuation branches that each
terminate as a payoff at the final round. -/
theorem c9_payoff_count :
    fta_rec false 3 2 2 ⟨NATURE, "0", 0, 0⟩ = 8 + 9 ∧
    formulate_game false 2 2 = 2 * 17 ∧
    formulate_game false 2 2 = 34 := by
  decide

/-- C10.  `available_actions` never offers Fold, for any state and any role:
the construction only ever appends Check, Bet, Call, Raise and Shove, and
`can_fold` is never consulted. -/
theorem c10_no_fold_in_available (s : LHState) (role : Fin 2) :
    (available_actions s role).any is_fold_opt = false := by
  unfold available_actions
  split
  · rfl
  · simp only [List.map_append, List.any_append, Bool.or_eq_false_iff]
    refine ⟨⟨⟨⟨?_, ?_⟩, ?_⟩, ?_⟩, ?_⟩ <;> (split <;> rfl)

end HUB
